import Mathlib

/-!
# The RSA context initialiser of the ALTCOM mbedTLS proxy

A shallow embedding of `modules/lte/altcom/api/mbedtls/rsa_init.c`.

The two functions of the file, `rsa_init_request` and `mbedtls_rsa_init`, are
straight-line code over a handful of collaborators (readiness query, context
id manager, buffer manager, command gateway, error slot).  The collaborators
are not part of the file; what they answer is collected in an `Env`, and every
call made to them is appended, in program order, to a trace of `Event`s.  The
process-wide error slot and the caller's handle are explicit state.

Machine integers are `Nat`/`Int` with explicit reduction modulo `2^32`.
-/

namespace RsaInit

/-! ## Machine integers and byte order -/

/-- Conversion of a signed value to `uint32_t` (reduction modulo `2^32`). -/
def toU32 (i : Int) : Nat := (i % 4294967296).toNat

/-- Conversion of a `uint32_t` bit pattern to `int32_t` (two's complement). -/
def toI32 (n : Nat) : Int :=
  if n % 4294967296 < 2147483648 then ((n % 4294967296 : Nat) : Int)
  else ((n % 4294967296 : Nat) : Int) - 4294967296

/-- Reversal of the four bytes of a 32-bit word. -/
def bswap32 (x : Nat) : Nat :=
  (x % 256) * 16777216 + (x / 256 % 256) * 65536 + (x / 65536 % 256) * 256
    + (x / 16777216 % 256)

/-- The C library `htonl` on a host whose byte order is little-endian when
`host_le` holds and big-endian otherwise. -/
def htonl (host_le : Bool) (x : Nat) : Nat :=
  if host_le then bswap32 x else x % 4294967296

/-- The C library `ntohl`; the same permutation of bytes as `htonl`. -/
def ntohl (host_le : Bool) (x : Nat) : Nat :=
  if host_le then bswap32 x else x % 4294967296

/-- The four bytes of a 32-bit word, most significant byte first. -/
def be_bytes (x : Nat) : List Nat :=
  [x / 16777216 % 256, x / 65536 % 256, x / 256 % 256, x % 256]

/-- The bytes a host writes to memory, lowest address first, when it stores a
32-bit word. -/
def store32 (host_le : Bool) (x : Nat) : List Nat :=
  if host_le then [x % 256, x / 256 % 256, x / 65536 % 256, x / 16777216 % 256]
  else be_bytes x

/-- The 32-bit word a host reads from four bytes of memory, lowest address
first. -/
def load32 (host_le : Bool) (bs : List Nat) : Nat :=
  match bs with
  | [b0, b1, b2, b3] =>
    if host_le then
      b0 % 256 + (b1 % 256) * 256 + (b2 % 256) * 65536 + (b3 % 256) * 16777216
    else
      (b0 % 256) * 16777216 + (b1 % 256) * 65536 + (b2 % 256) * 256 + b3 % 256
  | _ => 0

/-! ## Constants and types of the absent headers -/

/-- Constants the file takes from headers that are not part of it. -/
structure Consts where
  APICMD_VER_V1 : Int
  ALTCOM_ENETDOWN : Int
  SYS_TIMEO_FEVR : Int
  SSL_RSA_CTX : Nat
  APICMDID_TLS_RSA_INIT : Nat

/-- Modelled from the spec: `struct apicmd_rsa_init_s` of `apicmd_rsa_init.h`,
the wire command `{ remote_object_id: u32, padding_mode: i32,
hash_algorithm_id: i32 }`.  The fields hold the C values as the host sees
them. -/
structure apicmd_rsa_init_s where
  ctx : Nat
  padding : Int
  hash_id : Int
  deriving DecidableEq, Repr

/-- Modelled from the spec: `sizeof(struct apicmd_rsa_initres_s)`, the wire
response `{ result_code: i32 }`, four bytes. -/
def RSA_INIT_RES_DATALEN : Nat := 4

/-- Modelled from the spec: `sizeof(struct apicmd_rsa_init_s)`, three 32-bit
fields. -/
def RSA_INIT_REQ_DATALEN : Nat := 12

def RSA_INIT_SUCCESS : Int := 0

def RSA_INIT_FAILURE : Int := -1

/-- The private request of the file. -/
structure rsa_init_req_s where
  id : Nat
  padding : Int
  hash_id : Int
  deriving DecidableEq, Repr

/-- Modelled from the spec: `mbedtls_rsa_context`, the remote object handle,
of which the file touches the `id` field (unsigned 32-bit) only. -/
structure mbedtls_rsa_context where
  id : Nat
  deriving DecidableEq, Repr

/-- In-memory bytes of the three fields of a command buffer on a host. -/
def ctx_mem (host_le : Bool) (c : apicmd_rsa_init_s) : List Nat :=
  store32 host_le c.ctx

def padding_mem (host_le : Bool) (c : apicmd_rsa_init_s) : List Nat :=
  store32 host_le (toU32 c.padding)

def hash_id_mem (host_le : Bool) (c : apicmd_rsa_init_s) : List Nat :=
  store32 host_le (toU32 c.hash_id)

/-! ## Collaborators -/

/-- What a successful `altcom_mbedtls_alloc_cmdandresbuff` hands back: the two
buffer addresses and whatever the command body holds at that moment. -/
structure Buffers where
  cmd : Nat
  res : Nat
  cmd_body : apicmd_rsa_init_s
  deriving DecidableEq, Repr

/-- Answers of the collaborators during one call.  `send_ret` is the
`int32_t` returned by `apicmdgw_send`, `send_reslen` the content of the
`uint16_t reslen` after that call, `res_ret_code_mem` the bytes found in
`res->ret_code` after it, and `alloc_cmdandresbuff` is `none` when
`altcom_mbedtls_alloc_cmdandresbuff` returns false. -/
structure Env where
  host_le : Bool
  altcom_isinit : Bool
  get_mbedtls_ctx_id : Nat → Nat
  apicmdgw_get_protocolversion : Int
  alloc_cmdandresbuff : Option Buffers
  send_ret : Int
  send_reslen : Nat
  res_ret_code_mem : List Nat

/-- Calls made to the collaborators, with their arguments and answers, and the
`DBGIF_LOG` lines (format string without its trailing newline, and the value
logged). -/
inductive Event where
  | altcom_isinit (r : Bool)
  | altcom_seterrno (code : Int)
  | get_mbedtls_ctx_id (kind : Nat) (r : Nat)
  | apicmdgw_get_protocolversion (r : Int)
  | altcom_mbedtls_alloc_cmdandresbuff (cmdid : Nat) (cmdlen : Nat) (reslen : Nat)
      (r : Option (Nat × Nat))
  | apicmdgw_send (cmd : Nat) (body : apicmd_rsa_init_s) (res : Nat) (bufflen : Nat)
      (timeout : Int) (ret : Int) (reslen : Nat)
  | altcom_mbedtls_free_cmdandresbuff (cmd : Nat) (res : Nat)
  | dbgif_log (msg : String) (arg : Option Int)
  deriving DecidableEq, Repr

/-- Result of one run of `rsa_init_request`: the returned value, the value
assigned by `ret = ntohl(res->ret_code)` when that statement is reached, and
the calls made. -/
structure ReqRun where
  ret : Int
  decoded : Option Int
  trace : List Event
  deriving DecidableEq, Repr

/-- Process-wide error slot and the caller's handle. -/
structure World where
  errno : Int
  ctx : mbedtls_rsa_context
  deriving DecidableEq, Repr

/-- Result of one run of `mbedtls_rsa_init` (a `void` function): the error
slot and handle it leaves behind, and the calls made. -/
structure InitRun where
  world : World
  trace : List Event
  deriving DecidableEq, Repr

/-! ## The two functions of the file -/

def rsa_init_request (K : Consts) (env : Env) (req : rsa_init_req_s) : ReqRun :=
  let t0 := [Event.apicmdgw_get_protocolversion env.apicmdgw_get_protocolversion]
  if env.apicmdgw_get_protocolversion ≠ K.APICMD_VER_V1 then
    { ret := RSA_INIT_FAILURE, decoded := none, trace := t0 }
  else
    match env.alloc_cmdandresbuff with
    | none =>
      { ret := RSA_INIT_FAILURE, decoded := none,
        trace := t0 ++ [Event.altcom_mbedtls_alloc_cmdandresbuff K.APICMDID_TLS_RSA_INIT
                  RSA_INIT_REQ_DATALEN RSA_INIT_RES_DATALEN none] }
    | some b =>
      let t1 := t0 ++ [Event.altcom_mbedtls_alloc_cmdandresbuff K.APICMDID_TLS_RSA_INIT
                  RSA_INIT_REQ_DATALEN RSA_INIT_RES_DATALEN (some (b.cmd, b.res))]
      let cmd0 := b.cmd_body
      let cmd1 := { cmd0 with ctx := htonl env.host_le req.id }
      let cmd2 := { cmd1 with padding := toI32 (htonl env.host_le (toU32 req.padding)) }
      let cmd3 := { cmd2 with hash_id := toI32 (htonl env.host_le (toU32 req.hash_id)) }
      let t2 := t1 ++ [Event.dbgif_log "[rsa_init]ctx id: %d" (some (req.id : Int)),
                       Event.dbgif_log "[rsa_init]padding: %d" (some req.padding),
                       Event.dbgif_log "[rsa_init]hash_id: %d" (some req.hash_id)]
      let ret := env.send_ret
      let reslen := env.send_reslen
      let t3 := t2 ++ [Event.apicmdgw_send b.cmd cmd3 b.res RSA_INIT_RES_DATALEN
                         K.SYS_TIMEO_FEVR ret reslen]
      if ret < 0 then
        { ret := RSA_INIT_FAILURE, decoded := none,
          trace := t3 ++ [Event.dbgif_log "apicmdgw_send error: %d" (some ret),
                          Event.altcom_mbedtls_free_cmdandresbuff b.cmd b.res] }
      else if reslen ≠ RSA_INIT_RES_DATALEN then
        { ret := RSA_INIT_FAILURE, decoded := none,
          trace := t3 ++ [Event.dbgif_log "Unexpected response data length: %d"
                            (some (reslen : Int)),
                          Event.altcom_mbedtls_free_cmdandresbuff b.cmd b.res] }
      else
        let ret1 := toI32 (ntohl env.host_le (load32 env.host_le env.res_ret_code_mem))
        { ret := RSA_INIT_SUCCESS, decoded := some ret1,
          trace := t3 ++ [Event.dbgif_log "[rsa_init res]ret: %d" (some ret1),
                          Event.altcom_mbedtls_free_cmdandresbuff b.cmd b.res] }

def mbedtls_rsa_init (K : Consts) (env : Env) (w : World) (padding : Int) (hash_id : Int) :
    InitRun :=
  let t0 := [Event.altcom_isinit env.altcom_isinit]
  if !env.altcom_isinit then
    { world := { w with errno := K.ALTCOM_ENETDOWN },
      trace := t0 ++ [Event.dbgif_log "Not intialized" none,
                      Event.altcom_seterrno K.ALTCOM_ENETDOWN] }
  else
    let id := env.get_mbedtls_ctx_id K.SSL_RSA_CTX % 4294967296
    let req : rsa_init_req_s :=
      { id := id, padding := toI32 (toU32 padding), hash_id := toI32 (toU32 hash_id) }
    let t1 := t0 ++ [Event.get_mbedtls_ctx_id K.SSL_RSA_CTX id]
    let w1 : World := { w with ctx := { w.ctx with id := req.id } }
    let r := rsa_init_request K env req
    let t2 := t1 ++ r.trace
    if r.ret ≠ RSA_INIT_SUCCESS then
      { world := w1, trace := t2 ++ [Event.dbgif_log "%s error." none] }
    else
      { world := w1, trace := t2 }

/-! ## Observations on traces -/

/-- Calls of `apicmdgw_send`. -/
def Event.is_send : Event → Bool
  | .apicmdgw_send _ _ _ _ _ _ _ => true
  | _ => false

/-- Calls of `altcom_mbedtls_alloc_cmdandresbuff`, successful or not. -/
def Event.is_alloc : Event → Bool
  | .altcom_mbedtls_alloc_cmdandresbuff _ _ _ _ => true
  | _ => false

/-- Calls of `altcom_mbedtls_free_cmdandresbuff`. -/
def Event.is_free : Event → Bool
  | .altcom_mbedtls_free_cmdandresbuff _ _ => true
  | _ => false

/-- Calls of `altcom_seterrno`. -/
def Event.is_seterrno : Event → Bool
  | .altcom_seterrno _ => true
  | _ => false

/-- Calls of `get_mbedtls_ctx_id`. -/
def Event.is_get_ctx_id : Event → Bool
  | .get_mbedtls_ctx_id _ _ => true
  | _ => false

/-- The buffer pair handed out by a successful allocation. -/
def Event.allocated_pair : Event → Option (Nat × Nat)
  | .altcom_mbedtls_alloc_cmdandresbuff _ _ _ r => r
  | _ => none

/-- The buffer pair given to a free. -/
def Event.freed_pair : Event → Option (Nat × Nat)
  | .altcom_mbedtls_free_cmdandresbuff c r => some (c, r)
  | _ => none

/-- The command body, expected response size and timeout given to a send. -/
def Event.sent : Event → Option (apicmd_rsa_init_s × Nat × Int)
  | .apicmdgw_send _ body _ bufflen timeout _ _ => some (body, bufflen, timeout)
  | _ => none

/-- Buffer pairs obtained by the successful allocations of a trace, in order. -/
def allocated_pairs (t : List Event) : List (Nat × Nat) :=
  t.filterMap Event.allocated_pair

/-- Buffer pairs freed in a trace, in order. -/
def freed_pairs (t : List Event) : List (Nat × Nat) :=
  t.filterMap Event.freed_pair

/-- Arguments of the sends of a trace, in order. -/
def sends (t : List Event) : List (apicmd_rsa_init_s × Nat × Int) :=
  t.filterMap Event.sent

/-- The error slot after a trace: the code of the last `altcom_seterrno`, or
the initial content when there is none. -/
def errno_after (e0 : Int) : List Event → Int
  | [] => e0
  | .altcom_seterrno code :: t => errno_after code t
  | _ :: t => errno_after e0 t

/-- Ownership of the command/response pair during one call. -/
inductive BufState where
  | unallocated
  | held (cmd : Nat) (res : Nat)
  | freed
  deriving DecidableEq, Repr

/-- One step of the buffer discipline: a pair is allocated at most once and
only while none is held, sent and freed only while held and under the
addresses that were allocated, and nothing is sent or freed otherwise.
`none` is a violation. -/
def BufState.step : BufState → Event → Option BufState
  | .unallocated, .altcom_mbedtls_alloc_cmdandresbuff _ _ _ (some (c, r)) => some (.held c r)
  | .unallocated, .altcom_mbedtls_alloc_cmdandresbuff _ _ _ none => some .unallocated
  | _, .altcom_mbedtls_alloc_cmdandresbuff _ _ _ _ => none
  | .held c r, .apicmdgw_send c1 _ r1 _ _ _ _ =>
    if c = c1 ∧ r = r1 then some (.held c r) else none
  | _, .apicmdgw_send _ _ _ _ _ _ _ => none
  | .held c r, .altcom_mbedtls_free_cmdandresbuff c1 r1 =>
    if c = c1 ∧ r = r1 then some .freed else none
  | _, .altcom_mbedtls_free_cmdandresbuff _ _ => none
  | s, _ => some s

/-- Runs the buffer discipline over a trace. -/
def BufState.run : BufState → List Event → Option BufState
  | s, [] => some s
  | s, e :: t =>
    match s.step e with
    | some s1 => BufState.run s1 t
    | none => none

/-- A trace respects the buffer discipline and ends with no pair held. -/
def lifecycle_ok (t : List Event) : Bool :=
  match BufState.run .unallocated t with
  | some .unallocated => true
  | some .freed => true
  | _ => false

/-- The request a peer of either byte order reads back from the in-memory
bytes of a command body written on a host: each field is loaded from its four
bytes and passed through `ntohl`; the two signed fields are then read as
`int32_t`. -/
def peer_decode (peer_le : Bool) (host_le : Bool) (c : apicmd_rsa_init_s) : rsa_init_req_s :=
  { id := ntohl peer_le (load32 peer_le (ctx_mem host_le c)),
    padding := toI32 (ntohl peer_le (load32 peer_le (padding_mem host_le c))),
    hash_id := toI32 (ntohl peer_le (load32 peer_le (hash_id_mem host_le c))) }

/-- The three fields `rsa_init_request` reads back from its own command body
with `ntohl` on the same host. -/
def host_decode (host_le : Bool) (c : apicmd_rsa_init_s) : rsa_init_req_s :=
  { id := ntohl host_le c.ctx,
    padding := toI32 (ntohl host_le (toU32 c.padding)),
    hash_id := toI32 (ntohl host_le (toU32 c.hash_id)) }

/-! ## Sample collaborators -/

/-- Sample constants: protocol version 1, `ENETDOWN` 100, wait-forever -1. -/
def K0 : Consts :=
  { APICMD_VER_V1 := 1, ALTCOM_ENETDOWN := 100, SYS_TIMEO_FEVR := -1,
    SSL_RSA_CTX := 9, APICMDID_TLS_RSA_INIT := 330 }

/-- A ready little-endian host whose exchange succeeds: id 42, a response of
four bytes, remote result code 0. -/
def env_ok : Env :=
  { host_le := true, altcom_isinit := true, get_mbedtls_ctx_id := fun _ => 42,
    apicmdgw_get_protocolversion := 1,
    alloc_cmdandresbuff :=
      some { cmd := 4096, res := 8192, cmd_body := { ctx := 0, padding := 0, hash_id := 0 } },
    send_ret := 0, send_reslen := 4, res_ret_code_mem := [0, 0, 0, 0] }

/-- A caller's state before the call. -/
def w0 : World := { errno := 0, ctx := { id := 5 } }

/-! ## Byte-order arithmetic -/

theorem toU32_lt (i : Int) : toU32 i < 4294967296 := by
  unfold toU32; omega

theorem toU32_toI32 (n : Nat) : toU32 (toI32 n) = n % 4294967296 := by
  unfold toU32 toI32; split_ifs <;> omega

theorem toI32_toU32 (i : Int) (hlo : -2147483648 ≤ i) (hhi : i < 2147483648) :
    toI32 (toU32 i) = i := by
  unfold toU32 toI32; split_ifs <;> omega

theorem bswap32_lt (x : Nat) : bswap32 x < 4294967296 := by
  unfold bswap32; omega

theorem htonl_lt (le : Bool) (x : Nat) : htonl le x < 4294967296 := by
  unfold htonl; split_ifs
  · exact bswap32_lt x
  · omega

theorem word_of_bytes (a0 a1 a2 a3 : Nat) (h0 : a0 < 256) (h1 : a1 < 256) (h2 : a2 < 256)
    (h3 : a3 < 256) :
    (a0 * 16777216 + a1 * 65536 + a2 * 256 + a3) % 256 = a3 ∧
    (a0 * 16777216 + a1 * 65536 + a2 * 256 + a3) / 256 % 256 = a2 ∧
    (a0 * 16777216 + a1 * 65536 + a2 * 256 + a3) / 65536 % 256 = a1 ∧
    (a0 * 16777216 + a1 * 65536 + a2 * 256 + a3) / 16777216 % 256 = a0 ∧
    (a0 * 16777216 + a1 * 65536 + a2 * 256 + a3) / 16777216 = a0 ∧
    (a0 * 16777216 + a1 * 65536 + a2 * 256 + a3) % 4294967296
      = a0 * 16777216 + a1 * 65536 + a2 * 256 + a3 := by
  refine ⟨?_, ?_, ?_, ?_, ?_, ?_⟩ <;> omega

theorem bytes_of_word (x : Nat) :
    x % 4294967296
      = (x / 16777216 % 256) * 16777216 + (x / 65536 % 256) * 65536 + (x / 256 % 256) * 256
        + x % 256 := by
  omega

theorem mod_word_bytes (x : Nat) :
    x % 4294967296 / 16777216 % 256 = x / 16777216 % 256 ∧
    x % 4294967296 / 65536 % 256 = x / 65536 % 256 ∧
    x % 4294967296 / 256 % 256 = x / 256 % 256 ∧
    x % 4294967296 % 256 = x % 256 := by
  refine ⟨?_, ?_, ?_, ?_⟩ <;> omega

theorem store32_htonl (le : Bool) (x : Nat) : store32 le (htonl le x) = be_bytes x := by
  cases le
  · obtain ⟨h3, h2, h1, h0⟩ := mod_word_bytes x
    simp only [store32, htonl, be_bytes, h0, h1, h2, h3, Bool.false_eq_true, if_false]
  · obtain ⟨h3, h2, h1, h0, -, -⟩ := word_of_bytes (x % 256) (x / 256 % 256) (x / 65536 % 256)
      (x / 16777216 % 256) (Nat.mod_lt _ (by norm_num)) (Nat.mod_lt _ (by norm_num))
      (Nat.mod_lt _ (by norm_num)) (Nat.mod_lt _ (by norm_num))
    simp only [store32, htonl, be_bytes, bswap32, h0, h1, h2, h3, if_true]

theorem ntohl_load32_be_bytes (le : Bool) (x : Nat) :
    ntohl le (load32 le (be_bytes x)) = x % 4294967296 := by
  have hb := bytes_of_word x
  cases le
  · simp only [ntohl, load32, be_bytes, Bool.false_eq_true, if_false, Nat.mod_mod]
    omega
  · have e : load32 true (be_bytes x)
        = (x % 256) * 16777216 + (x / 256 % 256) * 65536 + (x / 65536 % 256) * 256
          + (x / 16777216 % 256) := by
      simp only [load32, be_bytes, if_true, Nat.mod_mod]; omega
    obtain ⟨h3, h2, h1, h0, -, -⟩ := word_of_bytes (x % 256) (x / 256 % 256) (x / 65536 % 256)
      (x / 16777216 % 256) (Nat.mod_lt _ (by norm_num)) (Nat.mod_lt _ (by norm_num))
      (Nat.mod_lt _ (by norm_num)) (Nat.mod_lt _ (by norm_num))
    simp only [ntohl, if_true, e]
    unfold bswap32
    rw [h0, h1, h2, h3]
    omega

theorem ntohl_htonl (le : Bool) (x : Nat) : ntohl le (htonl le x) = x % 4294967296 := by
  cases le
  · simp only [ntohl, htonl, Bool.false_eq_true, if_false, Nat.mod_mod]
  · obtain ⟨h3, h2, h1, h0, -, -⟩ := word_of_bytes (x % 256) (x / 256 % 256) (x / 65536 % 256)
      (x / 16777216 % 256) (Nat.mod_lt _ (by norm_num)) (Nat.mod_lt _ (by norm_num))
      (Nat.mod_lt _ (by norm_num)) (Nat.mod_lt _ (by norm_num))
    have hb := bytes_of_word x
    simp only [ntohl, htonl, if_true]
    show bswap32 (x % 256 * 16777216 + x / 256 % 256 * 65536 + x / 65536 % 256 * 256
      + x / 16777216 % 256) = _
    unfold bswap32
    rw [h0, h1, h2, h3]
    omega

/-! ## The five exits of `rsa_init_request` -/

theorem rsa_init_request_version (K : Consts) (env : Env) (req : rsa_init_req_s)
    (hv : env.apicmdgw_get_protocolversion ≠ K.APICMD_VER_V1) :
    rsa_init_request K env req =
      { ret := RSA_INIT_FAILURE, decoded := none,
        trace := [Event.apicmdgw_get_protocolversion env.apicmdgw_get_protocolversion] } := by
  unfold rsa_init_request
  simp [hv]

theorem rsa_init_request_nobuf (K : Consts) (env : Env) (req : rsa_init_req_s)
    (hv : env.apicmdgw_get_protocolversion = K.APICMD_VER_V1)
    (ha : env.alloc_cmdandresbuff = none) :
    rsa_init_request K env req =
      { ret := RSA_INIT_FAILURE, decoded := none,
        trace := [Event.apicmdgw_get_protocolversion env.apicmdgw_get_protocolversion,
                  Event.altcom_mbedtls_alloc_cmdandresbuff K.APICMDID_TLS_RSA_INIT
                    RSA_INIT_REQ_DATALEN RSA_INIT_RES_DATALEN none] } := by
  unfold rsa_init_request
  simp [hv, ha]

theorem rsa_init_request_senderr (K : Consts) (env : Env) (req : rsa_init_req_s) (b : Buffers)
    (hv : env.apicmdgw_get_protocolversion = K.APICMD_VER_V1)
    (ha : env.alloc_cmdandresbuff = some b) (hs : env.send_ret < 0) :
    rsa_init_request K env req =
      { ret := RSA_INIT_FAILURE, decoded := none,
        trace := [Event.apicmdgw_get_protocolversion env.apicmdgw_get_protocolversion,
                  Event.altcom_mbedtls_alloc_cmdandresbuff K.APICMDID_TLS_RSA_INIT
                    RSA_INIT_REQ_DATALEN RSA_INIT_RES_DATALEN (some (b.cmd, b.res)),
                  Event.dbgif_log "[rsa_init]ctx id: %d" (some (req.id : Int)),
                  Event.dbgif_log "[rsa_init]padding: %d" (some req.padding),
                  Event.dbgif_log "[rsa_init]hash_id: %d" (some req.hash_id),
                  Event.apicmdgw_send b.cmd
                    { ctx := htonl env.host_le req.id,
                      padding := toI32 (htonl env.host_le (toU32 req.padding)),
                      hash_id := toI32 (htonl env.host_le (toU32 req.hash_id)) }
                    b.res RSA_INIT_RES_DATALEN K.SYS_TIMEO_FEVR env.send_ret env.send_reslen,
                  Event.dbgif_log "apicmdgw_send error: %d" (some env.send_ret),
                  Event.altcom_mbedtls_free_cmdandresbuff b.cmd b.res] } := by
  unfold rsa_init_request
  simp [hv, ha, hs]

theorem rsa_init_request_badlen (K : Consts) (env : Env) (req : rsa_init_req_s) (b : Buffers)
    (hv : env.apicmdgw_get_protocolversion = K.APICMD_VER_V1)
    (ha : env.alloc_cmdandresbuff = some b) (hs : ¬ env.send_ret < 0)
    (hl : env.send_reslen ≠ RSA_INIT_RES_DATALEN) :
    rsa_init_request K env req =
      { ret := RSA_INIT_FAILURE, decoded := none,
        trace := [Event.apicmdgw_get_protocolversion env.apicmdgw_get_protocolversion,
                  Event.altcom_mbedtls_alloc_cmdandresbuff K.APICMDID_TLS_RSA_INIT
                    RSA_INIT_REQ_DATALEN RSA_INIT_RES_DATALEN (some (b.cmd, b.res)),
                  Event.dbgif_log "[rsa_init]ctx id: %d" (some (req.id : Int)),
                  Event.dbgif_log "[rsa_init]padding: %d" (some req.padding),
                  Event.dbgif_log "[rsa_init]hash_id: %d" (some req.hash_id),
                  Event.apicmdgw_send b.cmd
                    { ctx := htonl env.host_le req.id,
                      padding := toI32 (htonl env.host_le (toU32 req.padding)),
                      hash_id := toI32 (htonl env.host_le (toU32 req.hash_id)) }
                    b.res RSA_INIT_RES_DATALEN K.SYS_TIMEO_FEVR env.send_ret env.send_reslen,
                  Event.dbgif_log "Unexpected response data length: %d"
                    (some (env.send_reslen : Int)),
                  Event.altcom_mbedtls_free_cmdandresbuff b.cmd b.res] } := by
  unfold rsa_init_request
  simp [hv, ha, hs, hl]

theorem rsa_init_request_done (K : Consts) (env : Env) (req : rsa_init_req_s) (b : Buffers)
    (hv : env.apicmdgw_get_protocolversion = K.APICMD_VER_V1)
    (ha : env.alloc_cmdandresbuff = some b) (hs : ¬ env.send_ret < 0)
    (hl : env.send_reslen = RSA_INIT_RES_DATALEN) :
    rsa_init_request K env req =
      { ret := RSA_INIT_SUCCESS,
        decoded := some (toI32 (ntohl env.host_le (load32 env.host_le env.res_ret_code_mem))),
        trace := [Event.apicmdgw_get_protocolversion env.apicmdgw_get_protocolversion,
                  Event.altcom_mbedtls_alloc_cmdandresbuff K.APICMDID_TLS_RSA_INIT
                    RSA_INIT_REQ_DATALEN RSA_INIT_RES_DATALEN (some (b.cmd, b.res)),
                  Event.dbgif_log "[rsa_init]ctx id: %d" (some (req.id : Int)),
                  Event.dbgif_log "[rsa_init]padding: %d" (some req.padding),
                  Event.dbgif_log "[rsa_init]hash_id: %d" (some req.hash_id),
                  Event.apicmdgw_send b.cmd
                    { ctx := htonl env.host_le req.id,
                      padding := toI32 (htonl env.host_le (toU32 req.padding)),
                      hash_id := toI32 (htonl env.host_le (toU32 req.hash_id)) }
                    b.res RSA_INIT_RES_DATALEN K.SYS_TIMEO_FEVR env.send_ret env.send_reslen,
                  Event.dbgif_log "[rsa_init res]ret: %d"
                    (some (toI32 (ntohl env.host_le (load32 env.host_le env.res_ret_code_mem)))),
                  Event.altcom_mbedtls_free_cmdandresbuff b.cmd b.res] } := by
  unfold rsa_init_request
  simp [hv, ha, hs, hl]

/-! ## The two exits of `mbedtls_rsa_init` -/

theorem mbedtls_rsa_init_down (K : Consts) (env : Env) (w : World) (padding hash_id : Int)
    (h : env.altcom_isinit = false) :
    mbedtls_rsa_init K env w padding hash_id =
      { world := { errno := K.ALTCOM_ENETDOWN, ctx := w.ctx },
        trace := [Event.altcom_isinit false, Event.dbgif_log "Not intialized" none,
                  Event.altcom_seterrno K.ALTCOM_ENETDOWN] } := by
  unfold mbedtls_rsa_init
  simp [h]

theorem mbedtls_rsa_init_up (K : Consts) (env : Env) (w : World) (padding hash_id : Int)
    (h : env.altcom_isinit = true) :
    mbedtls_rsa_init K env w padding hash_id =
      { world := { errno := w.errno,
                   ctx := { id := env.get_mbedtls_ctx_id K.SSL_RSA_CTX % 4294967296 } },
        trace := Event.altcom_isinit true ::
          Event.get_mbedtls_ctx_id K.SSL_RSA_CTX
            (env.get_mbedtls_ctx_id K.SSL_RSA_CTX % 4294967296) ::
          ((rsa_init_request K env
              { id := env.get_mbedtls_ctx_id K.SSL_RSA_CTX % 4294967296,
                padding := toI32 (toU32 padding),
                hash_id := toI32 (toU32 hash_id) }).trace ++
            (if (rsa_init_request K env
                  { id := env.get_mbedtls_ctx_id K.SSL_RSA_CTX % 4294967296,
                    padding := toI32 (toU32 padding),
                    hash_id := toI32 (toU32 hash_id) }).ret ≠ RSA_INIT_SUCCESS
             then [Event.dbgif_log "%s error." none] else [])) } := by
  unfold mbedtls_rsa_init
  simp only [h, Bool.not_true, Bool.false_eq_true, if_false]
  split_ifs <;> simp

/-! ## Facts shared by the properties below -/

theorem errno_after_append (e0 : Int) (a b : List Event) :
    errno_after e0 (a ++ b) = errno_after (errno_after e0 a) b := by
  induction a generalizing e0 with
  | nil => rfl
  | cons e t ih => cases e <;> simp [errno_after, ih]

theorem run_append (s : BufState) (a b : List Event) :
    BufState.run s (a ++ b) = (BufState.run s a).bind (fun s1 => BufState.run s1 b) := by
  induction a generalizing s with
  | nil => simp [BufState.run]
  | cons e t ih =>
    simp only [List.cons_append, BufState.run]
    cases h : s.step e with
    | none => simp
    | some s1 => simp [ih]

theorem rsa_init_request_sends (K : Consts) (env : Env) (req : rsa_init_req_s) :
    sends (rsa_init_request K env req).trace
      = (if env.apicmdgw_get_protocolversion = K.APICMD_VER_V1
            ∧ env.alloc_cmdandresbuff.isSome = true
         then [({ ctx := htonl env.host_le req.id,
                  padding := toI32 (htonl env.host_le (toU32 req.padding)),
                  hash_id := toI32 (htonl env.host_le (toU32 req.hash_id)) },
                RSA_INIT_RES_DATALEN, K.SYS_TIMEO_FEVR)]
         else []) := by
  by_cases hv : env.apicmdgw_get_protocolversion = K.APICMD_VER_V1
  swap
  · simp [rsa_init_request_version K env req hv, hv, sends, Event.sent]
  cases ha : env.alloc_cmdandresbuff with
  | none => simp [rsa_init_request_nobuf K env req hv ha, sends, Event.sent]
  | some b =>
    by_cases hs : env.send_ret < 0
    · simp [rsa_init_request_senderr K env req b hv ha hs, hv, sends, Event.sent]
    by_cases hl : env.send_reslen = RSA_INIT_RES_DATALEN
    · simp [rsa_init_request_done K env req b hv ha hs hl, hv, sends, Event.sent]
    · simp [rsa_init_request_badlen K env req b hv ha hs hl, hv, sends, Event.sent]

theorem rsa_init_request_counts (K : Consts) (env : Env) (req : rsa_init_req_s) :
    (rsa_init_request K env req).trace.countP Event.is_send
        = (if env.apicmdgw_get_protocolversion = K.APICMD_VER_V1
              ∧ env.alloc_cmdandresbuff.isSome = true then 1 else 0) ∧
      (rsa_init_request K env req).trace.countP Event.is_free
        = (if env.apicmdgw_get_protocolversion = K.APICMD_VER_V1
              ∧ env.alloc_cmdandresbuff.isSome = true then 1 else 0) ∧
      (rsa_init_request K env req).trace.countP Event.is_alloc
        = (if env.apicmdgw_get_protocolversion = K.APICMD_VER_V1 then 1 else 0) ∧
      (rsa_init_request K env req).trace.countP Event.is_seterrno = 0 ∧
      (rsa_init_request K env req).trace.countP Event.is_get_ctx_id = 0 := by
  by_cases hv : env.apicmdgw_get_protocolversion = K.APICMD_VER_V1
  swap
  · simp [rsa_init_request_version K env req hv, hv, Event.is_send, Event.is_free,
      Event.is_alloc, Event.is_seterrno, Event.is_get_ctx_id]
  cases ha : env.alloc_cmdandresbuff with
  | none =>
    simp [rsa_init_request_nobuf K env req hv ha, hv, Event.is_send, Event.is_free,
      Event.is_alloc, Event.is_seterrno, Event.is_get_ctx_id]
  | some b =>
    by_cases hs : env.send_ret < 0
    · simp [rsa_init_request_senderr K env req b hv ha hs, hv, Event.is_send, Event.is_free,
        Event.is_alloc, Event.is_seterrno, Event.is_get_ctx_id]
    by_cases hl : env.send_reslen = RSA_INIT_RES_DATALEN
    · simp [rsa_init_request_done K env req b hv ha hs hl, hv, Event.is_send, Event.is_free,
        Event.is_alloc, Event.is_seterrno, Event.is_get_ctx_id]
    · simp [rsa_init_request_badlen K env req b hv ha hs hl, hv, Event.is_send, Event.is_free,
        Event.is_alloc, Event.is_seterrno, Event.is_get_ctx_id]

theorem rsa_init_request_errno (K : Consts) (env : Env) (req : rsa_init_req_s) (e0 : Int) :
    errno_after e0 (rsa_init_request K env req).trace = e0 := by
  by_cases hv : env.apicmdgw_get_protocolversion = K.APICMD_VER_V1
  swap
  · simp [rsa_init_request_version K env req hv, errno_after]
  cases ha : env.alloc_cmdandresbuff with
  | none => simp [rsa_init_request_nobuf K env req hv ha, errno_after]
  | some b =>
    by_cases hs : env.send_ret < 0
    · simp [rsa_init_request_senderr K env req b hv ha hs, errno_after]
    by_cases hl : env.send_reslen = RSA_INIT_RES_DATALEN
    · simp [rsa_init_request_done K env req b hv ha hs hl, errno_after]
    · simp [rsa_init_request_badlen K env req b hv ha hs hl, errno_after]

theorem rsa_init_request_run (K : Consts) (env : Env) (req : rsa_init_req_s) :
    BufState.run .unallocated (rsa_init_request K env req).trace
      = some (if env.apicmdgw_get_protocolversion = K.APICMD_VER_V1
                ∧ env.alloc_cmdandresbuff.isSome = true
              then BufState.freed else BufState.unallocated) := by
  by_cases hv : env.apicmdgw_get_protocolversion = K.APICMD_VER_V1
  swap
  · simp [rsa_init_request_version K env req hv, hv, BufState.run, BufState.step]
  cases ha : env.alloc_cmdandresbuff with
  | none => simp [rsa_init_request_nobuf K env req hv ha, BufState.run, BufState.step]
  | some b =>
    by_cases hs : env.send_ret < 0
    · simp [rsa_init_request_senderr K env req b hv ha hs, hv, BufState.run, BufState.step]
    by_cases hl : env.send_reslen = RSA_INIT_RES_DATALEN
    · simp [rsa_init_request_done K env req b hv ha hs hl, hv, BufState.run, BufState.step]
    · simp [rsa_init_request_badlen K env req b hv ha hs hl, hv, BufState.run, BufState.step]

theorem signed_field_mem (le : Bool) (v : Int) :
    store32 le (toU32 (toI32 (htonl le (toU32 v)))) = be_bytes (toU32 v) := by
  rw [toU32_toI32, Nat.mod_eq_of_lt (htonl_lt le _), store32_htonl]

theorem signed_field_peer (pl le : Bool) (v : Int) (hlo : -2147483648 ≤ v)
    (hhi : v < 2147483648) :
    toI32 (ntohl pl (load32 pl (store32 le (toU32 (toI32 (htonl le (toU32 v))))))) = v := by
  rw [signed_field_mem, ntohl_load32_be_bytes, Nat.mod_eq_of_lt (toU32_lt v),
    toI32_toU32 v hlo hhi]

theorem signed_field_host (le : Bool) (v : Int) (hlo : -2147483648 ≤ v)
    (hhi : v < 2147483648) :
    toI32 (ntohl le (toU32 (toI32 (htonl le (toU32 v))))) = v := by
  rw [toU32_toI32, Nat.mod_eq_of_lt (htonl_lt le _), ntohl_htonl,
    Nat.mod_eq_of_lt (toU32_lt v), toI32_toU32 v hlo hhi]

theorem mbedtls_rsa_init_up_sends (K : Consts) (env : Env) (w : World) (padding hash_id : Int)
    (h : env.altcom_isinit = true) :
    sends (mbedtls_rsa_init K env w padding hash_id).trace
      = sends (rsa_init_request K env
          { id := env.get_mbedtls_ctx_id K.SSL_RSA_CTX % 4294967296,
            padding := toI32 (toU32 padding), hash_id := toI32 (toU32 hash_id) }).trace := by
  rw [mbedtls_rsa_init_up K env w padding hash_id h]
  unfold sends
  simp only [List.filterMap_cons, List.filterMap_append, Event.sent]
  split_ifs <;> simp [Event.sent]

theorem mbedtls_rsa_init_up_countP (K : Consts) (env : Env) (w : World) (padding hash_id : Int)
    (h : env.altcom_isinit = true) (p : Event → Bool) (h1 : p (Event.altcom_isinit true) = false)
    (h2 : ∀ k r, p (Event.get_mbedtls_ctx_id k r) = false)
    (h3 : ∀ m a, p (Event.dbgif_log m a) = false) :
    (mbedtls_rsa_init K env w padding hash_id).trace.countP p
      = (rsa_init_request K env
          { id := env.get_mbedtls_ctx_id K.SSL_RSA_CTX % 4294967296,
            padding := toI32 (toU32 padding), hash_id := toI32 (toU32 hash_id) }).trace.countP
          p := by
  rw [mbedtls_rsa_init_up K env w padding hash_id h]
  simp [List.countP_cons, List.countP_append, h1, h2, h3]

theorem mbedtls_rsa_init_up_run (K : Consts) (env : Env) (w : World) (padding hash_id : Int)
    (h : env.altcom_isinit = true) :
    BufState.run .unallocated (mbedtls_rsa_init K env w padding hash_id).trace
      = some (if env.apicmdgw_get_protocolversion = K.APICMD_VER_V1
                ∧ env.alloc_cmdandresbuff.isSome = true
              then BufState.freed else BufState.unallocated) := by
  rw [mbedtls_rsa_init_up K env w padding hash_id h]
  simp only [BufState.run, BufState.step, run_append, rsa_init_request_run, Option.bind]
  split_ifs <;> simp [BufState.run, BufState.step]

/-! ## The buffer discipline rejects what it should -/

theorem lifecycle_rejects_send_before_alloc :
    lifecycle_ok [Event.apicmdgw_send 1 { ctx := 0, padding := 0, hash_id := 0 } 2 4 (-1) 0 4,
      Event.altcom_mbedtls_alloc_cmdandresbuff 330 12 4 (some (1, 2)),
      Event.altcom_mbedtls_free_cmdandresbuff 1 2] = false := by
  decide

theorem lifecycle_rejects_send_after_free :
    lifecycle_ok [Event.altcom_mbedtls_alloc_cmdandresbuff 330 12 4 (some (1, 2)),
      Event.altcom_mbedtls_free_cmdandresbuff 1 2,
      Event.apicmdgw_send 1 { ctx := 0, padding := 0, hash_id := 0 } 2 4 (-1) 0 4] = false := by
  decide

theorem lifecycle_rejects_double_free :
    lifecycle_ok [Event.altcom_mbedtls_alloc_cmdandresbuff 330 12 4 (some (1, 2)),
      Event.altcom_mbedtls_free_cmdandresbuff 1 2,
      Event.altcom_mbedtls_free_cmdandresbuff 1 2] = false := by
  decide

theorem lifecycle_rejects_leak :
    lifecycle_ok [Event.altcom_mbedtls_alloc_cmdandresbuff 330 12 4 (some (1, 2)),
      Event.apicmdgw_send 1 { ctx := 0, padding := 0, hash_id := 0 } 2 4 (-1) 0 4] = false := by
  decide

theorem lifecycle_rejects_free_after_failed_alloc :
    lifecycle_ok [Event.altcom_mbedtls_alloc_cmdandresbuff 330 12 4 none,
      Event.altcom_mbedtls_free_cmdandresbuff 0 0] = false := by
  decide

theorem lifecycle_rejects_foreign_pair :
    lifecycle_ok [Event.altcom_mbedtls_alloc_cmdandresbuff 330 12 4 (some (1, 2)),
      Event.altcom_mbedtls_free_cmdandresbuff 3 4] = false := by
  decide

/-! ## Responses of two and of six bytes -/

theorem rsa_init_request_two_bytes :
    (rsa_init_request K0 { env_ok with send_reslen := 2 }
        { id := 42, padding := 0, hash_id := 2 }).ret = -1 ∧
      (rsa_init_request K0 { env_ok with send_reslen := 2 }
        { id := 42, padding := 0, hash_id := 2 }).decoded = none := by
  decide

theorem rsa_init_request_six_bytes :
    (rsa_init_request K0 { env_ok with send_reslen := 6 }
        { id := 42, padding := 0, hash_id := 2 }).ret = -1 ∧
      (rsa_init_request K0 { env_ok with send_reslen := 6 }
        { id := 42, padding := 0, hash_id := 2 }).decoded = none := by
  decide

/-! ## Buffer lifecycle and return value of `rsa_init_request` -/

/-- C2: in every run of `rsa_init_request` the pairs given to
`altcom_mbedtls_free_cmdandresbuff` are, in order, exactly the pairs obtained
from successful `altcom_mbedtls_alloc_cmdandresbuff` calls; the number of
frees equals the number of successful allocations, which is at most one; and
that number is one on the three exits after a successful allocation (success,
transport error, wrong length) and zero on the version-mismatch and
allocation-failure exits. -/
theorem rsa_init_request_free_matches_alloc (K : Consts) (env : Env) (req : rsa_init_req_s) :
    freed_pairs (rsa_init_request K env req).trace
        = allocated_pairs (rsa_init_request K env req).trace ∧
      (rsa_init_request K env req).trace.countP Event.is_free
        = (allocated_pairs (rsa_init_request K env req).trace).length ∧
      (allocated_pairs (rsa_init_request K env req).trace).length ≤ 1 ∧
      (rsa_init_request K env req).trace.countP Event.is_alloc ≤ 1 ∧
      (rsa_init_request K env req).trace.countP Event.is_free
        = (if env.apicmdgw_get_protocolversion = K.APICMD_VER_V1
              ∧ env.alloc_cmdandresbuff.isSome = true then 1 else 0) := by
  by_cases hv : env.apicmdgw_get_protocolversion = K.APICMD_VER_V1
  swap
  · simp [rsa_init_request_version K env req hv, hv, freed_pairs, allocated_pairs,
      Event.freed_pair, Event.allocated_pair, Event.is_free, Event.is_alloc]
  cases ha : env.alloc_cmdandresbuff with
  | none =>
    simp [rsa_init_request_nobuf K env req hv ha, freed_pairs, allocated_pairs,
      Event.freed_pair, Event.allocated_pair, Event.is_free, Event.is_alloc]
  | some b =>
    by_cases hs : env.send_ret < 0
    · simp [rsa_init_request_senderr K env req b hv ha hs, hv, freed_pairs, allocated_pairs,
        Event.freed_pair, Event.allocated_pair, Event.is_free, Event.is_alloc]
    by_cases hl : env.send_reslen = RSA_INIT_RES_DATALEN
    · simp [rsa_init_request_done K env req b hv ha hs hl, hv, freed_pairs, allocated_pairs,
        Event.freed_pair, Event.allocated_pair, Event.is_free, Event.is_alloc]
    · simp [rsa_init_request_badlen K env req b hv ha hs hl, hv, freed_pairs, allocated_pairs,
        Event.freed_pair, Event.allocated_pair, Event.is_free, Event.is_alloc]

/-- C3: `rsa_init_request` returns `RSA_INIT_SUCCESS` exactly when the protocol
version is `APICMD_VER_V1`, the allocation succeeds, `apicmdgw_send` returns a
non-negative value and the received length equals `RSA_INIT_RES_DATALEN`, and
returns `RSA_INIT_FAILURE` in every other case; the response body is decoded
exactly in the successful case, so never for a received length other than the
expected one. -/
theorem rsa_init_request_ret (K : Consts) (env : Env) (req : rsa_init_req_s) :
    (rsa_init_request K env req).ret
        = (if env.apicmdgw_get_protocolversion = K.APICMD_VER_V1
              ∧ env.alloc_cmdandresbuff.isSome = true
              ∧ ¬ env.send_ret < 0
              ∧ env.send_reslen = RSA_INIT_RES_DATALEN
           then RSA_INIT_SUCCESS else RSA_INIT_FAILURE) ∧
      ((rsa_init_request K env req).ret = RSA_INIT_SUCCESS ↔
          (env.apicmdgw_get_protocolversion = K.APICMD_VER_V1
            ∧ env.alloc_cmdandresbuff.isSome = true
            ∧ ¬ env.send_ret < 0
            ∧ env.send_reslen = RSA_INIT_RES_DATALEN)) ∧
      ((rsa_init_request K env req).decoded.isSome = true ↔
          (env.apicmdgw_get_protocolversion = K.APICMD_VER_V1
            ∧ env.alloc_cmdandresbuff.isSome = true
            ∧ ¬ env.send_ret < 0
            ∧ env.send_reslen = RSA_INIT_RES_DATALEN)) := by
  by_cases hv : env.apicmdgw_get_protocolversion = K.APICMD_VER_V1
  swap
  · simp [rsa_init_request_version K env req hv, hv, RSA_INIT_SUCCESS, RSA_INIT_FAILURE]
  cases ha : env.alloc_cmdandresbuff with
  | none =>
    simp [rsa_init_request_nobuf K env req hv ha, RSA_INIT_SUCCESS, RSA_INIT_FAILURE]
  | some b =>
    by_cases hs : env.send_ret < 0
    · simp [rsa_init_request_senderr K env req b hv ha hs, hv, hs, RSA_INIT_SUCCESS,
        RSA_INIT_FAILURE]
    by_cases hl : env.send_reslen = RSA_INIT_RES_DATALEN
    · simp [rsa_init_request_done K env req b hv ha hs hl, hv, hs, hl, RSA_INIT_SUCCESS,
        RSA_INIT_FAILURE]
    · simp [rsa_init_request_badlen K env req b hv ha hs hl, hv, hs, hl, RSA_INIT_SUCCESS,
        RSA_INIT_FAILURE]

/-- C4: when the protocol version differs from `APICMD_VER_V1`,
`rsa_init_request` returns `RSA_INIT_FAILURE` without any allocation, free or
send, and without calling `altcom_seterrno`: the error slot keeps its content,
also across the enclosing `mbedtls_rsa_init` of a ready subsystem. -/
theorem rsa_init_request_version_mismatch (K : Consts) (env : Env) (req : rsa_init_req_s)
    (hv : env.apicmdgw_get_protocolversion ≠ K.APICMD_VER_V1) :
    (rsa_init_request K env req).ret = RSA_INIT_FAILURE ∧
      (rsa_init_request K env req).trace.countP Event.is_alloc = 0 ∧
      (rsa_init_request K env req).trace.countP Event.is_free = 0 ∧
      (rsa_init_request K env req).trace.countP Event.is_send = 0 ∧
      (rsa_init_request K env req).trace.countP Event.is_seterrno = 0 ∧
      (∀ e0 : Int, errno_after e0 (rsa_init_request K env req).trace = e0) ∧
      (∀ (w : World) (padding hash_id : Int), env.altcom_isinit = true →
        (mbedtls_rsa_init K env w padding hash_id).world.errno = w.errno) := by
  refine ⟨?_, ?_, ?_, ?_, ?_, ?_, ?_⟩
  · simp [rsa_init_request_version K env req hv]
  · simp [rsa_init_request_version K env req hv, Event.is_alloc]
  · simp [rsa_init_request_version K env req hv, Event.is_free]
  · simp [rsa_init_request_version K env req hv, Event.is_send]
  · simp [rsa_init_request_version K env req hv, Event.is_seterrno]
  · intro e0
    simp [rsa_init_request_version K env req hv, errno_after]
  · intro w padding hash_id hi
    simp [mbedtls_rsa_init_up K env w padding hash_id hi]

/-- Protocol version 2 against the required version 1. -/
theorem rsa_init_request_version_mismatch_witness :
    (rsa_init_request K0 { env_ok with apicmdgw_get_protocolversion := 2 }
        { id := 42, padding := 0, hash_id := 2 }).ret = RSA_INIT_FAILURE ∧
      (rsa_init_request K0 { env_ok with apicmdgw_get_protocolversion := 2 }
        { id := 42, padding := 0, hash_id := 2 }).trace.countP Event.is_alloc = 0 ∧
      (rsa_init_request K0 { env_ok with apicmdgw_get_protocolversion := 2 }
        { id := 42, padding := 0, hash_id := 2 }).trace.countP Event.is_send = 0 ∧
      (mbedtls_rsa_init K0 { env_ok with apicmdgw_get_protocolversion := 2 } w0 0 2).world.errno
        = w0.errno :=
  have h := rsa_init_request_version_mismatch K0
    { env_ok with apicmdgw_get_protocolversion := 2 } { id := 42, padding := 0, hash_id := 2 }
    (by decide)
  ⟨h.1, h.2.1, h.2.2.2.1, h.2.2.2.2.2.2 w0 0 2 rfl⟩

/-! ## The readiness gate and the error slot -/

/-- C1: when `altcom_isinit()` reports not-ready, `mbedtls_rsa_init` calls
neither `get_mbedtls_ctx_id` nor the buffer allocation nor `apicmdgw_send`,
leaves the handle (and so its `id` field) as it was, and leaves the error
slot at `ALTCOM_ENETDOWN`. -/
theorem mbedtls_rsa_init_not_ready (K : Consts) (env : Env) (w : World) (padding hash_id : Int)
    (h : env.altcom_isinit = false) :
    (mbedtls_rsa_init K env w padding hash_id).trace.countP Event.is_get_ctx_id = 0 ∧
      (mbedtls_rsa_init K env w padding hash_id).trace.countP Event.is_alloc = 0 ∧
      (mbedtls_rsa_init K env w padding hash_id).trace.countP Event.is_send = 0 ∧
      (mbedtls_rsa_init K env w padding hash_id).world.ctx.id = w.ctx.id ∧
      (mbedtls_rsa_init K env w padding hash_id).world.ctx = w.ctx ∧
      (mbedtls_rsa_init K env w padding hash_id).world.errno = K.ALTCOM_ENETDOWN ∧
      errno_after w.errno (mbedtls_rsa_init K env w padding hash_id).trace
        = K.ALTCOM_ENETDOWN := by
  rw [mbedtls_rsa_init_down K env w padding hash_id h]
  simp [Event.is_get_ctx_id, Event.is_alloc, Event.is_send, errno_after]

/-- A call on a subsystem that is not ready. -/
theorem mbedtls_rsa_init_not_ready_witness :
    (mbedtls_rsa_init K0 { env_ok with altcom_isinit := false } w0 1 4).trace.countP
        Event.is_get_ctx_id = 0 ∧
      (mbedtls_rsa_init K0 { env_ok with altcom_isinit := false } w0 1 4).world.ctx.id = 5 ∧
      (mbedtls_rsa_init K0 { env_ok with altcom_isinit := false } w0 1 4).world.errno = 100 :=
  have h := mbedtls_rsa_init_not_ready K0 { env_ok with altcom_isinit := false } w0 1 4 rfl
  ⟨h.1, h.2.2.2.1, h.2.2.2.2.2.1⟩

/-- C5: when the subsystem is ready the error slot after `mbedtls_rsa_init`
equals the slot before it, whatever the exit taken; `altcom_seterrno` is
called if and only if `altcom_isinit()` returned false; and the slot left
behind is the one the `altcom_seterrno` calls of the trace produce. -/
theorem mbedtls_rsa_init_errno_frame (K : Consts) (env : Env) (w : World)
    (padding hash_id : Int) :
    (env.altcom_isinit = true →
        (mbedtls_rsa_init K env w padding hash_id).world.errno = w.errno) ∧
      (0 < (mbedtls_rsa_init K env w padding hash_id).trace.countP Event.is_seterrno ↔
        env.altcom_isinit = false) ∧
      (mbedtls_rsa_init K env w padding hash_id).world.errno
        = errno_after w.errno (mbedtls_rsa_init K env w padding hash_id).trace := by
  cases hi : env.altcom_isinit with
  | false =>
    rw [mbedtls_rsa_init_down K env w padding hash_id hi]
    simp [Event.is_seterrno, errno_after]
  | true =>
    rw [mbedtls_rsa_init_up K env w padding hash_id hi]
    obtain ⟨-, -, -, hse, -⟩ := rsa_init_request_counts K env
      { id := env.get_mbedtls_ctx_id K.SSL_RSA_CTX % 4294967296,
        padding := toI32 (toU32 padding), hash_id := toI32 (toU32 hash_id) }
    refine ⟨fun _ => rfl, ?_, ?_⟩
    · have ht : List.countP Event.is_seterrno
          (if (rsa_init_request K env
                { id := env.get_mbedtls_ctx_id K.SSL_RSA_CTX % 4294967296,
                  padding := toI32 (toU32 padding),
                  hash_id := toI32 (toU32 hash_id) }).ret ≠ RSA_INIT_SUCCESS
           then [Event.dbgif_log "%s error." none] else []) = 0 := by
        split_ifs <;> simp [Event.is_seterrno]
      simp [List.countP_cons, List.countP_append, hse, ht, Event.is_seterrno]
    · simp only [errno_after, errno_after_append, rsa_init_request_errno]
      split_ifs <;> simp [errno_after]

/-- A ready call whose transport fails leaves the error slot alone. -/
theorem mbedtls_rsa_init_errno_frame_witness :
    (mbedtls_rsa_init K0 { env_ok with send_ret := -5 } w0 1 4).world.errno = w0.errno :=
  (mbedtls_rsa_init_errno_frame K0 { env_ok with send_ret := -5 } w0 1 4).1 rfl

/-! ## Binding of the remote object id -/

/-- C6: when the subsystem is ready, `get_mbedtls_ctx_id(SSL_RSA_CTX)` is
called exactly once, right after the readiness query and so before any
allocation or send; the id obtained (as a `uint32_t`) is what `ctx->id` holds
after the call on every exit, and its network-order bytes are what the `ctx`
field of the command carries whenever a command is sent. -/
theorem mbedtls_rsa_init_binds_id (K : Consts) (env : Env) (w : World) (padding hash_id : Int)
    (h : env.altcom_isinit = true) :
    (mbedtls_rsa_init K env w padding hash_id).trace.countP Event.is_get_ctx_id = 1 ∧
      (∃ post : List Event,
        (mbedtls_rsa_init K env w padding hash_id).trace
            = Event.altcom_isinit true ::
              Event.get_mbedtls_ctx_id K.SSL_RSA_CTX
                (env.get_mbedtls_ctx_id K.SSL_RSA_CTX % 4294967296) :: post ∧
          post.countP Event.is_get_ctx_id = 0) ∧
      (mbedtls_rsa_init K env w padding hash_id).world.ctx.id
        = env.get_mbedtls_ctx_id K.SSL_RSA_CTX % 4294967296 ∧
      (sends (mbedtls_rsa_init K env w padding hash_id).trace).map
          (fun s => ctx_mem env.host_le s.1)
        = (if env.apicmdgw_get_protocolversion = K.APICMD_VER_V1
              ∧ env.alloc_cmdandresbuff.isSome = true
           then [be_bytes (env.get_mbedtls_ctx_id K.SSL_RSA_CTX % 4294967296)] else []) ∧
      (sends (mbedtls_rsa_init K env w padding hash_id).trace).map
          (fun s => ntohl env.host_le s.1.ctx)
        = (if env.apicmdgw_get_protocolversion = K.APICMD_VER_V1
              ∧ env.alloc_cmdandresbuff.isSome = true
           then [env.get_mbedtls_ctx_id K.SSL_RSA_CTX % 4294967296] else []) := by
  obtain ⟨-, -, -, -, hget⟩ := rsa_init_request_counts K env
    { id := env.get_mbedtls_ctx_id K.SSL_RSA_CTX % 4294967296,
      padding := toI32 (toU32 padding), hash_id := toI32 (toU32 hash_id) }
  have htail : List.countP Event.is_get_ctx_id
      (if (rsa_init_request K env
            { id := env.get_mbedtls_ctx_id K.SSL_RSA_CTX % 4294967296,
              padding := toI32 (toU32 padding),
              hash_id := toI32 (toU32 hash_id) }).ret ≠ RSA_INIT_SUCCESS
       then [Event.dbgif_log "%s error." none] else []) = 0 := by
    split_ifs <;> simp [Event.is_get_ctx_id]
  refine ⟨?_, ?_, ?_, ?_, ?_⟩
  · rw [mbedtls_rsa_init_up K env w padding hash_id h]
    simp [List.countP_cons, List.countP_append, hget, htail, Event.is_get_ctx_id]
  · rw [mbedtls_rsa_init_up K env w padding hash_id h]
    exact ⟨_, rfl, by simp [List.countP_append, hget, Event.is_get_ctx_id]⟩
  · rw [mbedtls_rsa_init_up K env w padding hash_id h]
  · rw [mbedtls_rsa_init_up_sends K env w padding hash_id h, rsa_init_request_sends]
    split_ifs <;> simp [ctx_mem, store32_htonl]
  · rw [mbedtls_rsa_init_up_sends K env w padding hash_id h, rsa_init_request_sends]
    split_ifs <;> simp [ntohl_htonl]

/-- A ready call whose response is too short still leaves id 42 in the
handle. -/
theorem mbedtls_rsa_init_binds_id_witness :
    (mbedtls_rsa_init K0 { env_ok with send_reslen := 2 } w0 0 2).trace.countP
        Event.is_get_ctx_id = 1 ∧
      (mbedtls_rsa_init K0 { env_ok with send_reslen := 2 } w0 0 2).world.ctx.id = 42 ∧
      (sends (mbedtls_rsa_init K0 { env_ok with send_reslen := 2 } w0 0 2).trace).map
          (fun s => ctx_mem true s.1) = [[0, 0, 0, 42]] :=
  have h := mbedtls_rsa_init_binds_id K0 { env_ok with send_reslen := 2 } w0 0 2 rfl
  ⟨h.1, h.2.2.1, h.2.2.2.1⟩

/-! ## Order of the steps -/

/-- C10: in every run of `mbedtls_rsa_init`, `apicmdgw_send` is called at most
once: exactly once when the subsystem is ready, the protocol version is
`APICMD_VER_V1` and the allocation succeeds, and not at all otherwise; the
trace respects the buffer discipline (a send only while the allocated pair is
held, so after the allocation and before the free, and no pair left held at
the end); and the free happens under the same condition as the send, so a
failed allocation is followed by neither. -/
theorem mbedtls_rsa_init_step_order (K : Consts) (env : Env) (w : World)
    (padding hash_id : Int) :
    (mbedtls_rsa_init K env w padding hash_id).trace.countP Event.is_send ≤ 1 ∧
      (mbedtls_rsa_init K env w padding hash_id).trace.countP Event.is_send
        = (if env.altcom_isinit = true
              ∧ env.apicmdgw_get_protocolversion = K.APICMD_VER_V1
              ∧ env.alloc_cmdandresbuff.isSome = true then 1 else 0) ∧
      (mbedtls_rsa_init K env w padding hash_id).trace.countP Event.is_free
        = (if env.altcom_isinit = true
              ∧ env.apicmdgw_get_protocolversion = K.APICMD_VER_V1
              ∧ env.alloc_cmdandresbuff.isSome = true then 1 else 0) ∧
      (mbedtls_rsa_init K env w padding hash_id).trace.countP Event.is_alloc
        = (if env.altcom_isinit = true
              ∧ env.apicmdgw_get_protocolversion = K.APICMD_VER_V1 then 1 else 0) ∧
      lifecycle_ok (mbedtls_rsa_init K env w padding hash_id).trace = true := by
  cases hi : env.altcom_isinit with
  | false =>
    rw [mbedtls_rsa_init_down K env w padding hash_id hi]
    simp [Event.is_send, Event.is_free, Event.is_alloc, lifecycle_ok, BufState.run,
      BufState.step]
  | true =>
    obtain ⟨hs, hf, ha, -, -⟩ := rsa_init_request_counts K env
      { id := env.get_mbedtls_ctx_id K.SSL_RSA_CTX % 4294967296,
        padding := toI32 (toU32 padding), hash_id := toI32 (toU32 hash_id) }
    rw [mbedtls_rsa_init_up_countP K env w padding hash_id hi Event.is_send rfl
          (fun _ _ => rfl) (fun _ _ => rfl),
      mbedtls_rsa_init_up_countP K env w padding hash_id hi Event.is_free rfl
          (fun _ _ => rfl) (fun _ _ => rfl),
      mbedtls_rsa_init_up_countP K env w padding hash_id hi Event.is_alloc rfl
          (fun _ _ => rfl) (fun _ _ => rfl), hs, hf, ha]
    unfold lifecycle_ok
    rw [mbedtls_rsa_init_up_run K env w padding hash_id hi]
    refine ⟨?_, ?_, ?_, ?_, ?_⟩
    · split_ifs <;> simp
    · simp
    · simp
    · simp
    · split_ifs <;> rfl

/-! ## The wire command -/

/-- C8: whenever `rsa_init_request` calls `apicmdgw_send`, the command body it
passes holds, in memory, the big-endian four-byte encodings of `req->id`,
`req->padding` and `req->hash_id` in the fields `ctx`, `padding` and `hash_id`,
on a host of either byte order and whatever the buffer held when it was
allocated; the expected response size passed is `RSA_INIT_RES_DATALEN` and the
timeout `SYS_TIMEO_FEVR`. -/
theorem rsa_init_request_sends_network_order (K : Consts) (env : Env) (req : rsa_init_req_s) :
    (sends (rsa_init_request K env req).trace).map
        (fun s => (ctx_mem env.host_le s.1, padding_mem env.host_le s.1,
                   hash_id_mem env.host_le s.1, s.2.1, s.2.2))
      = (if env.apicmdgw_get_protocolversion = K.APICMD_VER_V1
            ∧ env.alloc_cmdandresbuff.isSome = true
         then [(be_bytes req.id, be_bytes (toU32 req.padding), be_bytes (toU32 req.hash_id),
                RSA_INIT_RES_DATALEN, K.SYS_TIMEO_FEVR)]
         else []) := by
  rw [rsa_init_request_sends]
  split_ifs
  · simp [ctx_mem, padding_mem, hash_id_mem, store32_htonl, signed_field_mem]
  · simp

/-- C7: for a request whose `id` is a `uint32_t` and whose `padding` and
`hash_id` are `int32_t` values, the command body `rsa_init_request` sends is
read back as the same three values, both by a peer of either byte order that
loads each field from the bytes in memory and applies `ntohl`, and by `ntohl`
applied to the fields on the sending host itself; this holds on little-endian
and on big-endian hosts. -/
theorem rsa_init_request_wire_roundtrip (K : Consts) (env : Env) (req : rsa_init_req_s)
    (peer_le : Bool) (hid : req.id < 4294967296)
    (hp_lo : -2147483648 ≤ req.padding) (hp_hi : req.padding < 2147483648)
    (hh_lo : -2147483648 ≤ req.hash_id) (hh_hi : req.hash_id < 2147483648) :
    (sends (rsa_init_request K env req).trace).map
          (fun s => peer_decode peer_le env.host_le s.1)
        = (if env.apicmdgw_get_protocolversion = K.APICMD_VER_V1
              ∧ env.alloc_cmdandresbuff.isSome = true then [req] else []) ∧
      (sends (rsa_init_request K env req).trace).map (fun s => host_decode env.host_le s.1)
        = (if env.apicmdgw_get_protocolversion = K.APICMD_VER_V1
              ∧ env.alloc_cmdandresbuff.isSome = true then [req] else []) := by
  rw [rsa_init_request_sends]
  cases req with
  | mk id padding hash_id =>
    simp only at hid hp_lo hp_hi hh_lo hh_hi
    split_ifs
    · simp [peer_decode, host_decode, ctx_mem, padding_mem, hash_id_mem, store32_htonl,
        ntohl_load32_be_bytes, ntohl_htonl, Nat.mod_eq_of_lt hid,
        signed_field_peer _ _ _ hp_lo hp_hi, signed_field_peer _ _ _ hh_lo hh_hi,
        signed_field_host _ _ hp_lo hp_hi, signed_field_host _ _ hh_lo hh_hi]
    · simp

/-- The request id=7, padding=1, hash_id=4 sent from a little-endian host and
read by a big-endian peer, and the request id=7, padding=-1, hash_id=-4 sent
from a big-endian host and read by a little-endian peer. -/
theorem rsa_init_request_wire_roundtrip_witness :
    (sends (rsa_init_request K0 env_ok { id := 7, padding := 1, hash_id := 4 }).trace).map
          (fun s => peer_decode false true s.1)
        = [{ id := 7, padding := 1, hash_id := 4 }] ∧
      (sends (rsa_init_request K0 { env_ok with host_le := false }
          { id := 7, padding := -1, hash_id := -4 }).trace).map
          (fun s => peer_decode true false s.1)
        = [{ id := 7, padding := -1, hash_id := -4 }] :=
  ⟨(rsa_init_request_wire_roundtrip K0 env_ok { id := 7, padding := 1, hash_id := 4 } false
      (by decide) (by decide) (by decide) (by decide) (by decide)).1,
   (rsa_init_request_wire_roundtrip K0 { env_ok with host_le := false }
      { id := 7, padding := -1, hash_id := -4 } true
      (by decide) (by decide) (by decide) (by decide) (by decide)).1⟩

/-! ## The remote result code -/

/-- C9: two runs that differ only in the bytes the peer left in
`res->ret_code`, with matching protocol version, successful allocation, no
transport error and a response of the expected size, both return
`RSA_INIT_SUCCESS` and both free the buffers exactly once, and the enclosing
`mbedtls_rsa_init` leaves the same error slot and the same handle in both; the
decoded result code is the big-endian value of those bytes read as `int32_t`,
and it has no part in the result. -/
theorem rsa_init_request_ignores_ret_code (K : Consts) (env : Env) (req : rsa_init_req_s)
    (mem : List Nat) (w : World) (padding hash_id : Int)
    (hv : env.apicmdgw_get_protocolversion = K.APICMD_VER_V1)
    (ha : env.alloc_cmdandresbuff.isSome = true) (hs : ¬ env.send_ret < 0)
    (hl : env.send_reslen = RSA_INIT_RES_DATALEN) :
    (rsa_init_request K env req).ret = RSA_INIT_SUCCESS ∧
      (rsa_init_request K { env with res_ret_code_mem := mem } req).ret = RSA_INIT_SUCCESS ∧
      (rsa_init_request K env req).trace.countP Event.is_free = 1 ∧
      (rsa_init_request K { env with res_ret_code_mem := mem } req).trace.countP Event.is_free
        = 1 ∧
      freed_pairs (rsa_init_request K { env with res_ret_code_mem := mem } req).trace
        = freed_pairs (rsa_init_request K env req).trace ∧
      (rsa_init_request K { env with res_ret_code_mem := mem } req).decoded
        = some (toI32 (ntohl env.host_le (load32 env.host_le mem))) ∧
      (mbedtls_rsa_init K { env with res_ret_code_mem := mem } w padding hash_id).world
        = (mbedtls_rsa_init K env w padding hash_id).world := by
  obtain ⟨b, hb⟩ := Option.isSome_iff_exists.mp ha
  have e1 := rsa_init_request_done K env req b hv hb hs hl
  have e2 := rsa_init_request_done K { env with res_ret_code_mem := mem } req b hv hb hs hl
  refine ⟨?_, ?_, ?_, ?_, ?_, ?_, ?_⟩
  · rw [e1]
  · rw [e2]
  · rw [e1]; simp [Event.is_free]
  · rw [e2]; simp [Event.is_free]
  · rw [e1, e2]; simp [freed_pairs, Event.freed_pair]
  · rw [e2]
  · by_cases hi : env.altcom_isinit = true
    · rw [mbedtls_rsa_init_up K env w padding hash_id hi,
        mbedtls_rsa_init_up K { env with res_ret_code_mem := mem } w padding hash_id hi]
    · have hi0 : env.altcom_isinit = false := by simpa using hi
      rw [mbedtls_rsa_init_down K env w padding hash_id hi0,
        mbedtls_rsa_init_down K { env with res_ret_code_mem := mem } w padding hash_id hi0]

/-- The scenario id=42, padding=0, hash_id=2 with remote result code 0, against
the same exchange answered with the bytes of -1. -/
theorem rsa_init_request_ignores_ret_code_witness :
    (rsa_init_request K0 env_ok { id := 42, padding := 0, hash_id := 2 }).ret
        = RSA_INIT_SUCCESS ∧
      (rsa_init_request K0 { env_ok with res_ret_code_mem := [255, 255, 255, 255] }
        { id := 42, padding := 0, hash_id := 2 }).ret = RSA_INIT_SUCCESS ∧
      (rsa_init_request K0 { env_ok with res_ret_code_mem := [255, 255, 255, 255] }
        { id := 42, padding := 0, hash_id := 2 }).decoded
        = some (toI32 (ntohl true (load32 true [255, 255, 255, 255]))) ∧
      (mbedtls_rsa_init K0 { env_ok with res_ret_code_mem := [255, 255, 255, 255] } w0 0 2).world
        = (mbedtls_rsa_init K0 env_ok w0 0 2).world :=
  have h := rsa_init_request_ignores_ret_code K0 env_ok { id := 42, padding := 0, hash_id := 2 }
    [255, 255, 255, 255] w0 0 2 rfl rfl (by decide) rfl
  ⟨h.1, h.2.1, h.2.2.2.2.2.1, h.2.2.2.2.2.2⟩

end RsaInit
